import Mathlib

/-!
Shallow embedding of `tutorials/agent-with-tavily-web-access/hybrid-agent-tutorial.ipynb`.

The notebook wires third-party services (Tavily web search, a Chroma vector
store, OpenAI chat models) into a LangGraph ReAct agent.  Its own code is
credential setup, handle construction, one agent-factory call, and two
streaming print loops.  We embed that flow: environments are finite maps from
variable names to optional string values, external calls are oracles returning
`Except`, and the configuration values (tool parameters, model names, prompt
text) are transcribed from the notebook cells.
-/

namespace HybridAgent

/-! ### Environment and credential setup (notebook cell 6)

```python
if not os.environ.get("TAVILY_API_KEY"):
    os.environ["TAVILY_API_KEY"] = getpass.getpass("TAVILY_API_KEY:\n")
if not os.environ.get("OPENAI_API_KEY"):
    os.environ["OPENAI_API_KEY"] = getpass.getpass("Enter API key for OpenAI: ")
```
-/

/-- The process environment: a map from variable names to optional values. -/
def EnvMap : Type := String → Option String

/-- Python truthiness of `os.environ.get(key)`: `None` and `""` are falsy. -/
def truthy : Option String → Bool
  | none => false
  | some s => !s.isEmpty

/-- `os.environ[key] = v`. -/
def envSet (env : EnvMap) (key v : String) : EnvMap :=
  fun k => if k = key then some v else env k

/-- Result of running the credential-setup cell: the updated environment and,
for each of the two keys, whether `getpass.getpass` was invoked. -/
structure SetupResult where
  env : EnvMap
  promptedTavily : Bool
  promptedOpenai : Bool

/-- The two `if not os.environ.get(...)` statements of cell 6.  `tavilyInput`
and `openaiInput` are the values the user would type at the two `getpass`
prompts. -/
def credentialSetup (env : EnvMap) (tavilyInput openaiInput : String) : SetupResult :=
  let pT := !truthy (env "TAVILY_API_KEY")
  let env1 := if pT then envSet env "TAVILY_API_KEY" tavilyInput else env
  let pO := !truthy (env1 "OPENAI_API_KEY")
  let env2 := if pO then envSet env1 "OPENAI_API_KEY" openaiInput else env1
  ⟨env2, pT, pO⟩

/-! ### Third-party client handles (cells 6, 8, 11, 17)

Each handle records exactly the constructor arguments the notebook passes. -/

/-- `TavilyClient(api_key=os.getenv("TAVILY_API_KEY"))` (cell 6). -/
structure TavilyClientHandle where
  api_key : Option String
deriving DecidableEq

/-- The `tavily_client` constructed at the end of cell 6, reading the
environment left by `credentialSetup`. -/
def tavily_client (env : EnvMap) : TavilyClientHandle :=
  ⟨env "TAVILY_API_KEY"⟩

/-- `OpenAIEmbeddings()` with default arguments (cell 8). -/
structure OpenAIEmbeddingsHandle where
  defaultModel : Unit
deriving DecidableEq

/-- The `embeddings` handle of cell 8. -/
def embeddings : OpenAIEmbeddingsHandle := ⟨()⟩

/-- The arguments of the `Chroma(...)` constructor call (cell 8). -/
structure ChromaHandle where
  collection_name : String
  embedding_function : OpenAIEmbeddingsHandle
  persist_directory : String
deriving DecidableEq

/-- `vector_store = Chroma(collection_name="crm", embedding_function=embeddings,
persist_directory="supplemental/db")` (cell 8). -/
def vector_store : ChromaHandle :=
  { collection_name := "crm"
    embedding_function := embeddings
    persist_directory := "supplemental/db" }

/-- `retriever = vector_store.as_retriever()` (cell 11). -/
structure RetrieverHandle where
  store : ChromaHandle
deriving DecidableEq

/-- The `retriever` handle of cell 11. -/
def retriever : RetrieverHandle := ⟨vector_store⟩

/-! ### Tool handles (cell 15) -/

/-- The description string of the vector search tool (cell 15). -/
def vectorToolDescription : String :=
  "
    Perform a vector search on our company's CRM data.
    "

/-- The four capabilities of the tools the notebook builds. -/
inductive ToolKind
  | webSearch
  | webCrawl
  | webExtract
  | vectorRetrieval
deriving DecidableEq

/-- A tool handle, recording which library constructor built it and with
which arguments. -/
inductive ToolHandle
  | tavilySearch (max_results : Nat) (topic : String)
  | tavilyExtract (extract_depth : String)
  | tavilyCrawl
  | vectorSearch (r : RetrieverHandle) (name : String) (description : String)
deriving DecidableEq

/-- The capability a tool handle provides. -/
def ToolHandle.kind : ToolHandle → ToolKind
  | .tavilySearch _ _ => .webSearch
  | .tavilyExtract _ => .webExtract
  | .tavilyCrawl => .webCrawl
  | .vectorSearch _ _ _ => .vectorRetrieval

/-- `vector_search_tool = retriever.as_tool(name="vector_search", description=...)`. -/
def vector_search_tool : ToolHandle :=
  .vectorSearch retriever "vector_search" vectorToolDescription

/-- `search = TavilySearch(max_results=10, topic="general")`. -/
def search : ToolHandle := .tavilySearch 10 "general"

/-- `extract = TavilyExtract(extract_depth="advanced")`. -/
def extract : ToolHandle := .tavilyExtract "advanced"

/-- `crawl = TavilyCrawl()`. -/
def crawl : ToolHandle := .tavilyCrawl

/-! ### Chat model handles (cell 17) -/

/-- The arguments of a `ChatOpenAI(...)` constructor call. -/
structure ChatOpenAIHandle where
  model : String
  api_key : Option String
deriving DecidableEq

/-- `o3_mini = ChatOpenAI(model="o3-mini-2025-01-31", api_key=os.getenv("OPENAI_API_KEY"))`. -/
def o3_mini (env : EnvMap) : ChatOpenAIHandle :=
  ⟨"o3-mini-2025-01-31", env "OPENAI_API_KEY"⟩

/-- `gpt_4_1 = ChatOpenAI(model="gpt-4.1", api_key=os.getenv("OPENAI_API_KEY"))`. -/
def gpt_4_1 (env : EnvMap) : ChatOpenAIHandle :=
  ⟨"gpt-4.1", env "OPENAI_API_KEY"⟩

/-! ### The construction date and `strftime("%A, %B %d, %Y")` (cell 21) -/

/-- A calendar date, as carried by `datetime.datetime.today()`. -/
structure Date where
  year : Nat
  month : Nat
  day : Nat
deriving DecidableEq

/-- The dates `datetime` can produce: month in 1..12, day in 1..31, year ≥ 1. -/
def validDate (dt : Date) : Prop :=
  1 ≤ dt.month ∧ dt.month ≤ 12 ∧ 1 ≤ dt.day ∧ dt.day ≤ 31 ∧ 1 ≤ dt.year

instance (dt : Date) : Decidable (validDate dt) := by
  unfold validDate; infer_instance

/-- The English weekday names indexed by the Zeller congruence (0 = Saturday). -/
def weekdayNames : List String :=
  ["Saturday", "Sunday", "Monday", "Tuesday", "Wednesday", "Thursday", "Friday"]

/-- The English month names, `%B`. -/
def monthNames : List String :=
  ["January", "February", "March", "April", "May", "June", "July",
   "August", "September", "October", "November", "December"]

/-- the Zeller congruence: the weekday index of a Gregorian date
(0 = Saturday, 1 = Sunday, ..., 6 = Friday); this is the weekday the
`datetime` library reports via `%A`. -/
def zeller (dt : Date) : Nat :=
  let mm := if dt.month < 3 then dt.month + 12 else dt.month
  let yy := if dt.month < 3 then dt.year - 1 else dt.year
  let k := yy % 100
  let j := yy / 100
  (dt.day + 13 * (mm + 1) / 5 + k + k / 4 + j / 4 + 5 * j) % 7

/-- `%A`: the weekday name of a date. -/
def weekdayName (dt : Date) : String := weekdayNames.getD (zeller dt) ""

/-- `%B`: the month name (months are 1-based). -/
def monthName (m : Nat) : String := monthNames.getD (m - 1) ""

/-- Little-endian decimal digits of `n`, with explicit fuel (the first
argument) so the definition is structural. -/
def decDigitsAux : Nat → Nat → List Nat
  | 0, _ => []
  | fuel + 1, n => if n = 0 then [] else n % 10 :: decDigitsAux fuel (n / 10)

/-- `%Y`: the decimal numeral of the year (years here are ≥ 1). -/
def decString (n : Nat) : String :=
  String.mk ((decDigitsAux n n).reverse.map Nat.digitChar)

/-- `%d`: the zero-padded two-digit day of the month. -/
def twoDigit (d : Nat) : String :=
  String.mk [Nat.digitChar (d / 10), Nat.digitChar (d % 10)]

/-- `datetime.datetime.today().strftime("%A, %B %d, %Y")` (cell 21):
for example `"Tuesday, April 01, 2025"`. -/
def strftimeABdY (dt : Date) : String :=
  weekdayName dt ++ ", " ++ monthName dt.month ++ " " ++ twoDigit dt.day
    ++ ", " ++ decString dt.year

/-! ### Prompt template and the agent factory (cell 21) -/

/-- The text of the system prompt f-string (cell 21) before `{today}`. -/
def promptBefore : String :=
  "
        You are a ReAct-style research agent equipped with the following tools:

        * **Tavily Web Search**
        * **Tavily Web Extract**
        * **Tavily Web Crawl**
        * **Internal Vector Search** (for proprietary CRM data)

        Your mission is to conduct comprehensive, accurate, and up-to-date research, using a combination of real-time public web information and internal enterprise knowledge.  All answers must be grounded in retrieved information from the tools provided. You are not permitted to make up information or rely on prior knowledge.

        **Today's Date:** "

/-- The text of the system prompt f-string (cell 21) after `{today}`. -/
def promptAfter : String :=
  "

        **Available Tools:**

        1. **Tavily Web Search**

        * **Purpose:** Retrieve relevant web pages based on a query.
        * **Usage:** Provide a search query to receive up to 10 semantically ranked results, each containing the title, URL, and a content snippet.
        * **Best Practices:**
            * Use specific queries to narrow down results.
                * Example: \"OpenAI's latest product release\" and \"OpenAI's headquarters location\" rather than \"OpenAI's latest product release and headquarters location\"
            * Optimize searches using parameters such as `search_depth`, `time_range`, `include_domains`, and `include_raw_content`.
            * Break down complex queries into specific, focused sub-queries.

        2. **Tavily Web Crawl**

        * **Purpose:** Explore a website's structure and gather content from linked pages for deep research and information discovery from a single source.
        * **Usage:** Input a base URL to crawl, specifying parameters such as `max_depth`, `max_breadth`, and `extract_depth`.
        * **Best Practices:**

            * Begin with shallow crawls and progressively increase depth.
            * Utilize `select_paths` or `exclude_paths` to focus the crawl.
            * Set `extract_depth` to \"advanced\" for comprehensive extraction.

        3. **Tavily Web Extract**

        * **Purpose:** Extract the full content from specific web pages.
        * **Usage:** Provide URLs to retrieve detailed content.
        * **Best Practices:**

            * Set `extract_depth` to \"advanced\" for detailed content, including tables and embedded media.
            * Enable `include_images` if image data is necessary.

        4. **Internal Vector Search**

        * **Purpose:** Search the proprietary CRM knowledge base.
        * **Usage:** Submit a natural language query to retrieve relevant context from the CRM vector store. Contains context about key accounts like Meta, Apple, Google, Amazon, Microsoft, and Tesla.
        * **Best Practices:**
            * When possible, refer to specific information, such as names, dates, product usage, or meetings.
            

        **Guidelines for Conducting Research:**

        * You may not answer questions based on prior knowledge or assumptions.
        * **Citations:** Always support findings with source URLs, clearly provided as in-text citations.
        * **Accuracy:** Rely solely on data obtained via provided tools (web or vector store) —never fabricate information.
        * **If none of the tools return useful information, respond:**
            * \"I'm sorry, but none of the available tools provided sufficient information to answer this question.\"

        **Research Workflow:**

        * **Thought:** Consider necessary information and next steps.
        * **Action:** Select and execute appropriate tools.
        * **Observation:** Analyze obtained results.
        **IMPORTANT: Repeat Thought/Action/Observation cycles as needed. You MUST only respond to the user once you have gathered all the information you need.**
        * **Final Answer:** Synthesize and present findings with citations in markdown format.
        
        **Example Workflow:**

        **Workflow 4: Combine Web Tools and Vector Search**

        **Question:** What has Apple publicly shared about their AI strategy, and do we have any internal notes on recent meetings with them?

        * **Thought:** I’ll start by looking for Apple’s public statements on AI using a search.
        * **Action:** Tavily Web Search with the query \"Apple AI strategy 2024\" and `time_range` set to \"month\".
        * **Observation:** Found a recent article from Apple’s newsroom and a keynote transcript.
        * **Thought:** I want to read the full content of Apple’s keynote.
        * **Action:** Tavily Web Extract on the URL from the search result.
        * **Observation:** Extracted detailed content from Apple’s announcement.
        * **Thought:** Now, I’ll check our internal CRM data for recent meeting notes with Apple.
        * **Action:** Internal Vector Search with the query \"recent Apple meetings AI strategy\".
        * **Observation:** Retrieved notes from a Q2 strategy sync with Apple’s enterprise team.
        * **Final Answer:** Synthesized response combining public and internal data, with citations.
        ---

        You will now receive a research question from the user:
        "



/-- The full system prompt: the f-string with `{today}` substituted. -/
def systemPromptText (today : String) : String :=
  promptBefore ++ today ++ promptAfter

/-- One entry of the list passed to `ChatPromptTemplate.from_messages`:
either the `("system", text)` pair or `MessagesPlaceholder(variable_name=...)`. -/
inductive PromptMessage
  | system (text : String)
  | placeholder (variable_name : String)
deriving DecidableEq

/-- `ChatPromptTemplate.from_messages([...])`. -/
structure ChatPromptTemplate where
  messages : List PromptMessage
deriving DecidableEq

/-- The prompt template the notebook passes to the factory, as a function of
the captured `today` string. -/
def hybridPrompt (today : String) : ChatPromptTemplate :=
  ⟨[.system (systemPromptText today), .placeholder "messages"]⟩

/-- The object returned by `create_react_agent`, recording the arguments of
the factory call. -/
structure Agent where
  model : ChatOpenAIHandle
  tools : List ToolHandle
  prompt : ChatPromptTemplate
  name : String
deriving DecidableEq

/-- The library factory `create_react_agent(model=..., tools=..., prompt=...,
name=...)`: a single call producing the agent object. -/
def create_react_agent (model : ChatOpenAIHandle) (tools : List ToolHandle)
    (prompt : ChatPromptTemplate) (name : String) : Agent :=
  ⟨model, tools, prompt, name⟩

/-- `hybrid_agent = create_react_agent(model=gpt_4_1, tools=[search, crawl,
extract, vector_search_tool], prompt=..., name="hybrid_agent")` (cell 21),
as a function of the environment (read by `os.getenv` in cell 17) and the
construction date. -/
def hybrid_agent (env : EnvMap) (dt : Date) : Agent :=
  create_react_agent (gpt_4_1 env) [search, crawl, extract, vector_search_tool]
    (hybridPrompt (strftimeABdY dt)) "hybrid_agent"

/-! ### Agent invocation and the streaming print loop (cells 22 and 27)

```python
for s in hybrid_agent.stream(inputs, stream_mode="values"):
    message = s["messages"][-1]
    if isinstance(message, tuple):
        print(message)
    else:
        message.pretty_print()
```
-/

/-- An element of the snapshot field `"messages"` list: at runtime it is either a
Python tuple or a LangChain message object carrying its content. -/
inductive StreamItem
  | tupleItem (t : String)
  | messageItem (content : String)
deriving DecidableEq

/-- One state snapshot yielded by `hybrid_agent.stream(..., stream_mode="values")`:
a dict whose `"messages"` entry is a list. -/
structure Snapshot where
  messages : List StreamItem
deriving DecidableEq

/-- The `inputs` dict of an invocation cell: `{"messages": [HumanMessage(...)]}`. -/
structure AgentInput where
  messages : List StreamItem
deriving DecidableEq

/-- The `inputs` of cell 22. -/
def inputsCell22 : AgentInput :=
  ⟨[.messageItem
      "Search for the latest news on google relevant to our current CRM data on them"]⟩

/-- The `inputs` of cell 27. -/
def inputsCell27 : AgentInput :=
  ⟨[.messageItem
      "Check for the Google Deal size and find the latest earnings report for them to validate if they are in spending spree"]⟩

/-- What one iteration of the loop prints to the console: either
`print(message)` on a tuple or `message.pretty_print()` on a message. -/
inductive PrintAction
  | printed (t : String)
  | prettyPrinted (content : String)
deriving DecidableEq

/-- The body of the loop: take `s["messages"][-1]` and print it through the
branch selected by `isinstance(message, tuple)`. -/
def printStep : StreamItem → PrintAction
  | .tupleItem t => .printed t
  | .messageItem c => .prettyPrinted c

/-- The whole `for` loop over the streamed snapshots.  `s["messages"][-1]`
on an empty list raises `IndexError`; otherwise one item is printed per
snapshot, in stream order. -/
def streamLoop : List Snapshot → Except String (List PrintAction)
  | [] => .ok []
  | s :: rest =>
    match s.messages.getLast? with
    | none => .error "IndexError"
    | some m =>
      match streamLoop rest with
      | .error e => .error e
      | .ok out => .ok (printStep m :: out)

/-- An invocation cell: one blocking call `hybrid_agent.stream(inputs, ...)`
(the `stream` argument is the sequence that call returns) followed by the
print loop. -/
def invocationCell (stream : AgentInput → List Snapshot) (inputs : AgentInput) :
    Except String (List PrintAction) :=
  streamLoop (stream inputs)

/-! ### Operations against the vector store (cells 8, 11, 15, 22, 27)

The Chroma store itself lives in an external library; following its
interface, an operation either reads (constructing handles, similarity
queries) or writes (adding or deleting documents).  The notebook issues
only the operations listed in `notebookStoreOps`. -/

/-- An operation touching the persisted vector store.  The first four are
the calls the notebook makes; the last two are the write operations the
Chroma interface would offer. -/
inductive StoreOp
  | openCollection (c : ChromaHandle)
  | asRetriever (r : RetrieverHandle)
  | invokeQuery (q : String)
  | asTool (name : String)
  | addDocuments (docs : List String)
  | deleteDocuments (ids : List String)
deriving DecidableEq

/-- Whether an operation mutates the store. -/
def StoreOp.isWrite : StoreOp → Bool
  | .addDocuments _ => true
  | .deleteDocuments _ => true
  | _ => false

/-- Modelled from the Chroma interface: how an operation acts on the stored
collection of documents.  Reads leave the contents unchanged; `add_documents`
appends; `delete` removes. -/
def applyStoreOp (contents : List String) : StoreOp → List String
  | .addDocuments docs => contents ++ docs
  | .deleteDocuments ids => contents.filter (fun d => !ids.contains d)
  | _ => contents

/-- Run a sequence of store operations over initial contents. -/
def runStoreOps (contents : List String) (ops : List StoreOp) : List String :=
  ops.foldl applyStoreOp contents

/-- Every store-touching operation the notebook performs, in order: the
`Chroma(...)` open (cell 8), `as_retriever` (cell 11), the test query
(cell 11), `as_tool` (cell 15), and then one retrieval per query the agent
issues through `vector_search_tool` during the two invocations. -/
def notebookStoreOps (agentQueries : List String) : List StoreOp :=
  [.openCollection vector_store, .asRetriever retriever,
   .invokeQuery "robotics use case", .asTool "vector_search"]
    ++ agentQueries.map .invokeQuery

/-! ### The notebook as a pipeline of external calls

The notebook contains no `try`/`except`.  Each code cell is a sequence of
calls into external libraries; any exception one of them raises aborts the
run at that point.  `ExternalCalls` gives the outcome of each such call and
`runNotebook` sequences them exactly as the cells do, also returning the
list of steps that began executing. -/

/-- The successive external-library steps of the notebook, in cell order. -/
inductive StepName
  | dotenvStep
  | setupStep
  | tavilyClientStep
  | chromaStep
  | asRetrieverStep
  | retrieverInvokeStep
  | toolsStep
  | modelsStep
  | agentFactoryStep
  | firstStreamStep
  | secondStreamStep
deriving DecidableEq

/-- The outcome of each external library call the notebook makes: `.ok` when
the call returns, `.error e` when it raises exception `e`. -/
structure ExternalCalls where
  dotenvCall : Except String Unit
  tavilyClientCall : Except String Unit
  chromaCall : Except String Unit
  asRetrieverCall : Except String Unit
  retrieverInvokeCall : Except String (List String)
  toolsCall : Except String Unit
  modelsCall : Except String Unit
  agentFactoryCall : Except String Unit
  streamCall1 : AgentInput → Except String (List Snapshot)
  streamCall2 : AgentInput → Except String (List Snapshot)

/-- What a completed run of all cells produced. -/
structure NotebookRun where
  finalEnv : EnvMap
  search_results : List String
  agent : Agent
  printed1 : List PrintAction
  printed2 : List PrintAction

/-- Sequence one step: record that it began, return its exception unchanged
if it raises, otherwise continue.  There is no other error path — this is
the absence of `try`/`except` in the notebook. -/
def andThenStep (step : StepName) (call : Except String α)
    (k : α → Except String NotebookRun × List StepName) :
    Except String NotebookRun × List StepName :=
  match call with
  | .error e => (.error e, [step])
  | .ok a =>
    let r := k a
    (r.1, step :: r.2)

/-- The cell order of the steps. -/
def stepOrder : List StepName :=
  [.dotenvStep, .setupStep, .tavilyClientStep, .chromaStep, .asRetrieverStep,
   .retrieverInvokeStep, .toolsStep, .modelsStep, .agentFactoryStep,
   .firstStreamStep, .secondStreamStep]

/-- The exception carried by a raised call, if any. -/
def errOf {α : Type} : Except String α → Option String
  | .error e => some e
  | .ok _ => none

/-- Cell 22 as one external interaction: the blocking `stream` call followed
by the print loop over its snapshots. -/
def streamCall1Result (ext : ExternalCalls) : Except String (List PrintAction) :=
  match ext.streamCall1 inputsCell22 with
  | .error e => .error e
  | .ok snaps => streamLoop snaps

/-- Cell 27 as one external interaction. -/
def streamCall2Result (ext : ExternalCalls) : Except String (List PrintAction) :=
  match ext.streamCall2 inputsCell27 with
  | .error e => .error e
  | .ok snaps => streamLoop snaps

/-- The notebook, cell by cell: cell 6 (`load_dotenv`, the two credential
checks, `TavilyClient`), cell 8 (`Chroma`), cell 11 (`as_retriever` and the
test query), cell 15 (the four tool constructors), cell 17 (the two
`ChatOpenAI` constructors), cell 21 (`create_react_agent`) and cells 22 and
27 (the two streamed invocations with their print loops). -/
def runNotebook (ext : ExternalCalls) (env0 : EnvMap) (tIn oIn : String)
    (dt : Date) : Except String NotebookRun × List StepName :=
  andThenStep .dotenvStep ext.dotenvCall fun _ =>
  andThenStep .setupStep (.ok (credentialSetup env0 tIn oIn)) fun st =>
  andThenStep .tavilyClientStep ext.tavilyClientCall fun _ =>
  andThenStep .chromaStep ext.chromaCall fun _ =>
  andThenStep .asRetrieverStep ext.asRetrieverCall fun _ =>
  andThenStep .retrieverInvokeStep ext.retrieverInvokeCall fun docs =>
  andThenStep .toolsStep ext.toolsCall fun _ =>
  andThenStep .modelsStep ext.modelsCall fun _ =>
  andThenStep .agentFactoryStep ext.agentFactoryCall fun _ =>
  andThenStep .firstStreamStep (streamCall1Result ext) fun out1 =>
  andThenStep .secondStreamStep (streamCall2Result ext) fun out2 =>
  (.ok { finalEnv := st.env
         search_results := docs
         agent := hybrid_agent st.env dt
         printed1 := out1
         printed2 := out2 }, [])

/-- The exception, if any, that the external call behind a given step
raises when the notebook reaches it (for the two invocation steps this
includes the `IndexError` the loop itself can hit). -/
def stepRaised (ext : ExternalCalls) : StepName → Option String
  | .dotenvStep => errOf ext.dotenvCall
  | .setupStep => none
  | .tavilyClientStep => errOf ext.tavilyClientCall
  | .chromaStep => errOf ext.chromaCall
  | .asRetrieverStep => errOf ext.asRetrieverCall
  | .retrieverInvokeStep => errOf ext.retrieverInvokeCall
  | .toolsStep => errOf ext.toolsCall
  | .modelsStep => errOf ext.modelsCall
  | .agentFactoryStep => errOf ext.agentFactoryCall
  | .firstStreamStep => errOf (streamCall1Result ext)
  | .secondStreamStep => errOf (streamCall2Result ext)

/-! ### The program with and without the unused constructions

`tavily_client` (cell 6) and `o3_mini` (cell 17) are constructed but never
referenced again; `buildProgram` performs the constructions of the notebook with
or without those two. -/

/-- The handles a run of the construction cells leaves behind. -/
structure ConstructedHandles where
  tavily : Option TavilyClientHandle
  o3 : Option ChatOpenAIHandle
  gpt : ChatOpenAIHandle
  agent : Agent
deriving DecidableEq

/-- The construction portion of the notebook; `includeUnused` selects
whether the `TavilyClient` and o3-mini constructions are performed. -/
def buildProgram (includeUnused : Bool) (env : EnvMap) (dt : Date) :
    ConstructedHandles :=
  { tavily := if includeUnused then some (tavily_client env) else none
    o3 := if includeUnused then some (o3_mini env) else none
    gpt := gpt_4_1 env
    agent := hybrid_agent env dt }

/-! ## Theorems -/

/-! ### Helper facts about the credential setup -/

/-- Shorthand: remove a variable from an environment. -/
def envDrop (env : EnvMap) (key : String) : EnvMap :=
  fun k => if k = key then none else env k

/-- An environment where `TAVILY_API_KEY` is present but empty. -/
def envEmptyTavily : EnvMap :=
  fun k => if k = "TAVILY_API_KEY" then some "" else none

/-- An environment where both credentials are set to non-empty strings. -/
def envBothSet : EnvMap :=
  fun k =>
    if k = "TAVILY_API_KEY" then some "tvly-key"
    else if k = "OPENAI_API_KEY" then some "sk-key"
    else none

/-- An environment with no variables set. -/
def envNothingSet : EnvMap := fun _ => none

theorem credentialSetup_promptedTavily (env : EnvMap) (tIn oIn : String) :
    (credentialSetup env tIn oIn).promptedTavily = !truthy (env "TAVILY_API_KEY") := rfl

theorem credentialSetup_promptedOpenai (env : EnvMap) (tIn oIn : String) :
    (credentialSetup env tIn oIn).promptedOpenai = !truthy (env "OPENAI_API_KEY") := by
  unfold credentialSetup
  cases h : truthy (env "TAVILY_API_KEY") <;> simp [h, envSet]

theorem credentialSetup_env_tavily (env : EnvMap) (tIn oIn : String) :
    (credentialSetup env tIn oIn).env "TAVILY_API_KEY" =
      if truthy (env "TAVILY_API_KEY") then env "TAVILY_API_KEY" else some tIn := by
  unfold credentialSetup
  cases h : truthy (env "TAVILY_API_KEY") <;>
    cases hO : truthy (env "OPENAI_API_KEY") <;> simp [h, hO, envSet]

theorem credentialSetup_env_openai (env : EnvMap) (tIn oIn : String) :
    (credentialSetup env tIn oIn).env "OPENAI_API_KEY" =
      if truthy (env "OPENAI_API_KEY") then env "OPENAI_API_KEY" else some oIn := by
  unfold credentialSetup
  cases h : truthy (env "TAVILY_API_KEY") <;>
    cases hO : truthy (env "OPENAI_API_KEY") <;> simp [h, hO, envSet]

theorem credentialSetup_env_other (env : EnvMap) (tIn oIn : String) (k : String)
    (h1 : k ≠ "TAVILY_API_KEY") (h2 : k ≠ "OPENAI_API_KEY") :
    (credentialSetup env tIn oIn).env k = env k := by
  unfold credentialSetup
  cases hT : truthy (env "TAVILY_API_KEY") <;>
    cases hO : truthy (env "OPENAI_API_KEY") <;>
      simp [hT, hO, envSet, h1, h2]

theorem truthy_eq_false_iff (v : Option String) :
    truthy v = false ↔ v = none ∨ v = some "" := by
  cases v with
  | none => simp [truthy]
  | some s =>
    simp only [truthy, Bool.not_eq_false', String.isEmpty_iff, Option.some.injEq]
    constructor
    · rintro h; exact Or.inr h
    · rintro (h | h); · exact absurd h (by simp)
      · exact h

/-! ### C1 — prompting on missing credentials -/

/-- The literal reading of claim C1: for each of the two credential
variables, the prompt fires exactly when the variable is missing, and a
variable that is present (whatever its value) is left unchanged with no
prompt. -/
def claimC1 : Prop :=
  ∀ (env : EnvMap) (tIn oIn : String),
    ((credentialSetup env tIn oIn).promptedTavily = true ↔ env "TAVILY_API_KEY" = none) ∧
    ((credentialSetup env tIn oIn).promptedOpenai = true ↔ env "OPENAI_API_KEY" = none) ∧
    (env "TAVILY_API_KEY" ≠ none →
      (credentialSetup env tIn oIn).env "TAVILY_API_KEY" = env "TAVILY_API_KEY") ∧
    (env "OPENAI_API_KEY" ≠ none →
      (credentialSetup env tIn oIn).env "OPENAI_API_KEY" = env "OPENAI_API_KEY")

/-- C1 as stated is false: with `TAVILY_API_KEY` present but equal to `""`,
the setup cell prompts anyway (the check is Python truthiness, not
presence), so prompting is not equivalent to the variable being missing. -/
theorem c1_counterexample : ¬ claimC1 := by
  intro h
  have h1 := (h envEmptyTavily "newT" "newO").1
  have hp : (credentialSetup envEmptyTavily "newT" "newO").promptedTavily = true := by
    rw [credentialSetup_promptedTavily]; decide
  have := h1.mp hp
  simp [envEmptyTavily] at this

/-- C1 amended: the setup cell prompts for a credential exactly when the
variable is missing **or set to the empty string**; a prompted variable is
overwritten with the typed value, an unprompted one is left unchanged, no
other variable is touched, and the outcome depends only on the values of
`TAVILY_API_KEY` and `OPENAI_API_KEY`. -/
theorem c1_amended_prompting (env : EnvMap) (tIn oIn : String) :
    ((credentialSetup env tIn oIn).promptedTavily = true ↔
      (env "TAVILY_API_KEY" = none ∨ env "TAVILY_API_KEY" = some "")) ∧
    ((credentialSetup env tIn oIn).promptedOpenai = true ↔
      (env "OPENAI_API_KEY" = none ∨ env "OPENAI_API_KEY" = some "")) ∧
    ((credentialSetup env tIn oIn).promptedTavily = true →
      (credentialSetup env tIn oIn).env "TAVILY_API_KEY" = some tIn) ∧
    ((credentialSetup env tIn oIn).promptedTavily = false →
      (credentialSetup env tIn oIn).env "TAVILY_API_KEY" = env "TAVILY_API_KEY") ∧
    ((credentialSetup env tIn oIn).promptedOpenai = true →
      (credentialSetup env tIn oIn).env "OPENAI_API_KEY" = some oIn) ∧
    ((credentialSetup env tIn oIn).promptedOpenai = false →
      (credentialSetup env tIn oIn).env "OPENAI_API_KEY" = env "OPENAI_API_KEY") ∧
    (∀ k, k ≠ "TAVILY_API_KEY" → k ≠ "OPENAI_API_KEY" →
      (credentialSetup env tIn oIn).env k = env k) ∧
    (∀ env' : EnvMap, env' "TAVILY_API_KEY" = env "TAVILY_API_KEY" →
      env' "OPENAI_API_KEY" = env "OPENAI_API_KEY" →
      (credentialSetup env' tIn oIn).promptedTavily =
        (credentialSetup env tIn oIn).promptedTavily ∧
      (credentialSetup env' tIn oIn).promptedOpenai =
        (credentialSetup env tIn oIn).promptedOpenai ∧
      (credentialSetup env' tIn oIn).env "TAVILY_API_KEY" =
        (credentialSetup env tIn oIn).env "TAVILY_API_KEY" ∧
      (credentialSetup env' tIn oIn).env "OPENAI_API_KEY" =
        (credentialSetup env tIn oIn).env "OPENAI_API_KEY") := by
  refine ⟨?_, ?_, ?_, ?_, ?_, ?_, ?_, ?_⟩
  · rw [credentialSetup_promptedTavily, Bool.not_eq_true', truthy_eq_false_iff]
  · rw [credentialSetup_promptedOpenai, Bool.not_eq_true', truthy_eq_false_iff]
  · rw [credentialSetup_promptedTavily, credentialSetup_env_tavily,
      Bool.not_eq_true']
    intro h; simp [h]
  · rw [credentialSetup_promptedTavily, credentialSetup_env_tavily,
      Bool.not_eq_false']
    intro h; simp [h]
  · rw [credentialSetup_promptedOpenai, credentialSetup_env_openai,
      Bool.not_eq_true']
    intro h; simp [h]
  · rw [credentialSetup_promptedOpenai, credentialSetup_env_openai,
      Bool.not_eq_false']
    intro h; simp [h]
  · exact fun k h1 h2 => credentialSetup_env_other env tIn oIn k h1 h2
  · intro env' hT hO
    refine ⟨?_, ?_, ?_, ?_⟩
    · rw [credentialSetup_promptedTavily, credentialSetup_promptedTavily, hT]
    · rw [credentialSetup_promptedOpenai, credentialSetup_promptedOpenai, hO]
    · rw [credentialSetup_env_tavily, credentialSetup_env_tavily, hT]
    · rw [credentialSetup_env_openai, credentialSetup_env_openai, hO]

/-- Witness for the amended C1 at concrete environments: with both
credentials set non-empty nothing is prompted or changed; with
`TAVILY_API_KEY` empty it is prompted and overwritten. -/
theorem c1_amended_prompting_witness :
    (credentialSetup envBothSet "a" "b").promptedTavily = false ∧
    (credentialSetup envBothSet "a" "b").env "TAVILY_API_KEY" = some "tvly-key" ∧
    (credentialSetup envEmptyTavily "a" "b").promptedTavily = true ∧
    (credentialSetup envEmptyTavily "a" "b").env "TAVILY_API_KEY" = some "a" := by
  have h1 := c1_amended_prompting envBothSet "a" "b"
  have h2 := c1_amended_prompting envEmptyTavily "a" "b"
  have hp1 : (credentialSetup envBothSet "a" "b").promptedTavily = false := by
    have := h1.1
    cases hb : (credentialSetup envBothSet "a" "b").promptedTavily
    · rfl
    · have := this.mp hb
      simp [envBothSet] at this
  have hp2 : (credentialSetup envEmptyTavily "a" "b").promptedTavily = true :=
    h2.1.mpr (Or.inr (by simp [envEmptyTavily]))
  refine ⟨hp1, ?_, hp2, h2.2.2.1 hp2⟩
  have := h1.2.2.2.1 hp1
  rw [this]; simp [envBothSet]

/-! ### C8 — empty string treated as missing -/

/-- C8: a credential set to the empty string is treated exactly like a
missing one — the prompt fires, the value is overwritten with the typed
input, and the whole outcome (flags and final environment) coincides with
the outcome on the environment with that variable removed. -/
theorem c8_empty_string_like_missing (env : EnvMap) (tIn oIn : String) :
    (env "TAVILY_API_KEY" = some "" →
      (credentialSetup env tIn oIn).promptedTavily = true ∧
      (credentialSetup env tIn oIn).env "TAVILY_API_KEY" = some tIn ∧
      (credentialSetup env tIn oIn).promptedTavily =
        (credentialSetup (envDrop env "TAVILY_API_KEY") tIn oIn).promptedTavily ∧
      (credentialSetup env tIn oIn).promptedOpenai =
        (credentialSetup (envDrop env "TAVILY_API_KEY") tIn oIn).promptedOpenai ∧
      (∀ k, (credentialSetup env tIn oIn).env k =
        (credentialSetup (envDrop env "TAVILY_API_KEY") tIn oIn).env k)) ∧
    (env "OPENAI_API_KEY" = some "" →
      (credentialSetup env tIn oIn).promptedOpenai = true ∧
      (credentialSetup env tIn oIn).env "OPENAI_API_KEY" = some oIn ∧
      (credentialSetup env tIn oIn).promptedTavily =
        (credentialSetup (envDrop env "OPENAI_API_KEY") tIn oIn).promptedTavily ∧
      (credentialSetup env tIn oIn).promptedOpenai =
        (credentialSetup (envDrop env "OPENAI_API_KEY") tIn oIn).promptedOpenai ∧
      (∀ k, (credentialSetup env tIn oIn).env k =
        (credentialSetup (envDrop env "OPENAI_API_KEY") tIn oIn).env k)) := by
  constructor
  · intro hT
    have htr : truthy (env "TAVILY_API_KEY") = false := by rw [hT]; rfl
    have hdropT : envDrop env "TAVILY_API_KEY" "TAVILY_API_KEY" = none := by
      simp [envDrop]
    have hdropO : envDrop env "TAVILY_API_KEY" "OPENAI_API_KEY" = env "OPENAI_API_KEY" := by
      simp [envDrop]
    refine ⟨?_, ?_, ?_, ?_, ?_⟩
    · rw [credentialSetup_promptedTavily, htr]; rfl
    · rw [credentialSetup_env_tavily, htr]; rfl
    · rw [credentialSetup_promptedTavily, credentialSetup_promptedTavily, htr,
        hdropT]; rfl
    · rw [credentialSetup_promptedOpenai, credentialSetup_promptedOpenai, hdropO]
    · intro k
      by_cases hk1 : k = "TAVILY_API_KEY"
      · subst hk1
        rw [credentialSetup_env_tavily, credentialSetup_env_tavily, htr, hdropT]
        rfl
      · by_cases hk2 : k = "OPENAI_API_KEY"
        · subst hk2
          rw [credentialSetup_env_openai, credentialSetup_env_openai, hdropO]
        · rw [credentialSetup_env_other env tIn oIn k hk1 hk2,
            credentialSetup_env_other _ tIn oIn k hk1 hk2]
          simp [envDrop, hk1]
  · intro hO
    have htr : truthy (env "OPENAI_API_KEY") = false := by rw [hO]; rfl
    have hdropO : envDrop env "OPENAI_API_KEY" "OPENAI_API_KEY" = none := by
      simp [envDrop]
    have hdropT : envDrop env "OPENAI_API_KEY" "TAVILY_API_KEY" = env "TAVILY_API_KEY" := by
      simp [envDrop]
    refine ⟨?_, ?_, ?_, ?_, ?_⟩
    · rw [credentialSetup_promptedOpenai, htr]; rfl
    · rw [credentialSetup_env_openai, htr]; rfl
    · rw [credentialSetup_promptedTavily, credentialSetup_promptedTavily, hdropT]
    · rw [credentialSetup_promptedOpenai, credentialSetup_promptedOpenai, htr,
        hdropO]; rfl
    · intro k
      by_cases hk1 : k = "TAVILY_API_KEY"
      · subst hk1
        rw [credentialSetup_env_tavily, credentialSetup_env_tavily, hdropT]
      · by_cases hk2 : k = "OPENAI_API_KEY"
        · subst hk2
          rw [credentialSetup_env_openai, credentialSetup_env_openai, htr, hdropO]
          rfl
        · rw [credentialSetup_env_other env tIn oIn k hk1 hk2,
            credentialSetup_env_other _ tIn oIn k hk1 hk2]
          simp [envDrop, hk2]

/-- Witness for C8 at a concrete environment with an empty `TAVILY_API_KEY`. -/
theorem c8_empty_string_like_missing_witness :
    (credentialSetup envEmptyTavily "newT" "newO").promptedTavily = true ∧
    (credentialSetup envEmptyTavily "newT" "newO").env "TAVILY_API_KEY" = some "newT" := by
  have h := (c8_empty_string_like_missing envEmptyTavily "newT" "newO").1
    (by simp [envEmptyTavily])
  exact ⟨h.1, h.2.1⟩

/-! ### C2 — exactly four tool handles -/

/-- C2: the notebook constructs four tool handles — web search, web crawl,
web extract and vector retrieval, each from a library constructor — and
exactly these four, in this order, are the `tools` argument of the agent
factory. -/
theorem c2_exactly_four_tools (env : EnvMap) (dt : Date) :
    (hybrid_agent env dt).tools = [search, crawl, extract, vector_search_tool] ∧
    (hybrid_agent env dt).tools.length = 4 ∧
    (hybrid_agent env dt).tools.map ToolHandle.kind =
      [ToolKind.webSearch, ToolKind.webCrawl, ToolKind.webExtract,
       ToolKind.vectorRetrieval] :=
  ⟨rfl, rfl, rfl⟩

/-! ### C4 — a single factory call builds the agent -/

/-- C4: the agent object is the result of one call to the library factory
`create_react_agent`, whose arguments are the model handle, the four tool
handles, and the prompt carrying the formatted prompt string (the f-string
with the captured date substituted). -/
theorem c4_single_factory_call (env : EnvMap) (dt : Date) :
    hybrid_agent env dt =
      create_react_agent (gpt_4_1 env) [search, crawl, extract, vector_search_tool]
        (hybridPrompt (strftimeABdY dt)) "hybrid_agent" ∧
    (hybrid_agent env dt).model = gpt_4_1 env ∧
    (hybrid_agent env dt).tools = [search, crawl, extract, vector_search_tool] ∧
    (hybrid_agent env dt).prompt.messages =
      [.system (promptBefore ++ strftimeABdY dt ++ promptAfter),
       .placeholder "messages"] :=
  ⟨rfl, rfl, rfl, rfl⟩

/-! ### C5 — branch-free steps -/

/-- Which console routine a print action used. -/
def PrintAction.routine : PrintAction → String
  | .printed _ => "print"
  | .prettyPrinted _ => "pretty_print"

/-- The literal reading of claim C5 at the two condition sites present in
the notebook: neither the setup step (whether `getpass` runs) nor the loop
body (which print routine runs) may depend on a condition the notebook
itself evaluates. -/
def claimC5 : Prop :=
  (∀ (e1 e2 : EnvMap) (tIn oIn : String),
    (credentialSetup e1 tIn oIn).promptedTavily =
      (credentialSetup e2 tIn oIn).promptedTavily) ∧
  (∀ x y : StreamItem, (printStep x).routine = (printStep y).routine)

/-- C5 as stated is false: the setup cell branches on the truthiness of
`os.environ.get(...)` (prompting differs between an empty environment and
one with the keys set), and the stream loop branches on
`isinstance(message, tuple)` (routing to `print` or `pretty_print`). -/
theorem c5_counterexample : ¬ claimC5 := by
  intro h
  exact absurd (h.1 envNothingSet envBothSet "a" "b") (by decide)

/-- C5 amended: every step is a direct call into an external dependency
except at two sites where the notebook itself evaluates a condition — the
credential setup branches on the truthiness of each credential variable
(so its prompting behavior genuinely varies with the environment), and the
stream loop body branches on `isinstance(message, tuple)` (so the routine
called genuinely varies with the runtime type of the last message). -/
theorem c5_amended_two_branches :
    (∀ (env : EnvMap) (tIn oIn : String),
      (credentialSetup env tIn oIn).promptedTavily = !truthy (env "TAVILY_API_KEY") ∧
      (credentialSetup env tIn oIn).promptedOpenai = !truthy (env "OPENAI_API_KEY")) ∧
    ((credentialSetup envNothingSet "a" "b").promptedTavily ≠
      (credentialSetup envBothSet "a" "b").promptedTavily) ∧
    (∀ t c : String,
      printStep (.tupleItem t) = .printed t ∧
      printStep (.messageItem c) = .prettyPrinted c) ∧
    ((printStep (.tupleItem "x")).routine ≠ (printStep (.messageItem "x")).routine) := by
  refine ⟨?_, by decide, ?_, by decide⟩
  · intro env tIn oIn
    exact ⟨credentialSetup_promptedTavily env tIn oIn,
      credentialSetup_promptedOpenai env tIn oIn⟩
  · intro t c
    exact ⟨rfl, rfl⟩

/-- Witness for the amended C5 at concrete inputs. -/
theorem c5_amended_two_branches_witness :
    (credentialSetup envNothingSet "a" "b").promptedTavily =
      !truthy (envNothingSet "TAVILY_API_KEY") ∧
    printStep (.tupleItem "x") = .printed "x" :=
  ⟨(c5_amended_two_branches.1 envNothingSet "a" "b").1,
    (c5_amended_two_branches.2.2.1 "x" "x").1⟩

/-! ### C10 — the unused handles -/

/-- C10: the `TavilyClient` and o3-mini handles are never used downstream:
the agent is bound to the `gpt-4.1` handle (which differs from o3-mini),
and the program with the two unused constructions removed builds an agent
whose model, tools, and prompt — indeed the whole agent — are identical. -/
theorem c10_unused_constructions (env : EnvMap) (dt : Date) :
    (buildProgram false env dt).agent = (buildProgram true env dt).agent ∧
    (buildProgram false env dt).agent.model = gpt_4_1 env ∧
    (buildProgram false env dt).agent.tools = (buildProgram true env dt).agent.tools ∧
    (buildProgram false env dt).agent.prompt = (buildProgram true env dt).agent.prompt ∧
    (buildProgram true env dt).agent.model.model = "gpt-4.1" ∧
    (buildProgram true env dt).agent.model ≠ o3_mini env ∧
    (buildProgram true env dt).tavily = some (tavily_client env) ∧
    (buildProgram false env dt).tavily = none ∧
    (buildProgram true env dt).o3 = some (o3_mini env) ∧
    (buildProgram false env dt).o3 = none := by
  refine ⟨rfl, rfl, rfl, rfl, rfl, ?_, rfl, rfl, rfl, rfl⟩
  intro h
  have h2 : ("gpt-4.1" : String) = "o3-mini-2025-01-31" :=
    congrArg ChatOpenAIHandle.model h
  exact absurd h2 (by decide)

/-- Witness for C10 at a concrete environment and date. -/
theorem c10_unused_constructions_witness :
    (buildProgram false envBothSet ⟨2025, 4, 1⟩).agent =
      (buildProgram true envBothSet ⟨2025, 4, 1⟩).agent ∧
    (buildProgram true envBothSet ⟨2025, 4, 1⟩).agent.model ≠ o3_mini envBothSet := by
  obtain ⟨h1, -, -, -, -, h6, -⟩ := c10_unused_constructions envBothSet ⟨2025, 4, 1⟩
  exact ⟨h1, h6⟩

/-! ### C3 — the streaming print loop -/

/-- Helper: on a stream whose snapshots all have nonempty message lists,
the loop succeeds and prints exactly the last message of each snapshot,
one per snapshot, in order. -/
theorem streamLoop_spec (snaps : List Snapshot)
    (h : ∀ s ∈ snaps, s.messages ≠ []) :
    ∃ outs : List PrintAction,
      streamLoop snaps = .ok outs ∧
      outs.length = snaps.length ∧
      ∀ i : Nat, outs[i]? =
        (snaps[i]?.bind fun s => (s.messages.getLast?).map printStep) := by
  induction snaps with
  | nil =>
    refine ⟨[], rfl, rfl, ?_⟩
    intro i; simp
  | cons s rest ih =>
    obtain ⟨m, hm⟩ := Option.isSome_iff_exists.mp
      (List.getLast?_isSome.mpr (h s (List.mem_cons_self s rest)))
    obtain ⟨outs, hok, hlen, hidx⟩ := ih (fun t ht => h t (List.mem_cons_of_mem s ht))
    refine ⟨printStep m :: outs, ?_, by simp [hlen], ?_⟩
    · unfold streamLoop
      rw [hm, hok]
    · intro i
      cases i with
      | zero => simp [hm]
      | succ n => simpa using hidx n

/-- C3: each invocation cell carries exactly one user message, makes a
single blocking call to the agent, and its loop prints exactly the last
message of each returned snapshot — intermediate and final alike, one per
snapshot, in stream order. -/
theorem c3_invocation_prints_last (stream : AgentInput → List Snapshot)
    (inputs : AgentInput)
    (h : ∀ s ∈ stream inputs, s.messages ≠ []) :
    inputsCell22.messages =
      [.messageItem
        "Search for the latest news on google relevant to our current CRM data on them"] ∧
    inputsCell27.messages =
      [.messageItem
        "Check for the Google Deal size and find the latest earnings report for them to validate if they are in spending spree"] ∧
    inputsCell22.messages.length = 1 ∧
    inputsCell27.messages.length = 1 ∧
    ∃ outs : List PrintAction,
      invocationCell stream inputs = .ok outs ∧
      outs.length = (stream inputs).length ∧
      ∀ i : Nat, outs[i]? =
        ((stream inputs)[i]?.bind fun s => (s.messages.getLast?).map printStep) := by
  refine ⟨rfl, rfl, rfl, rfl, ?_⟩
  exact streamLoop_spec (stream inputs) h

/-- A concrete two-snapshot stream used to witness C3. -/
def streamExample : AgentInput → List Snapshot := fun _ =>
  [⟨[.messageItem "hi"]⟩, ⟨[.messageItem "hi", .tupleItem "t"]⟩]

/-- Witness for C3 on a concrete stream of two snapshots. -/
theorem c3_invocation_prints_last_witness :
    ∃ outs : List PrintAction,
      invocationCell streamExample inputsCell22 = .ok outs ∧ outs.length = 2 := by
  obtain ⟨-, -, -, -, outs, hok, hlen, -⟩ :=
    c3_invocation_prints_last streamExample inputsCell22 (by decide)
  exact ⟨outs, hok, hlen⟩

/-! ### C7 — the vector store is opened, never written -/

/-- Helper: a read operation leaves the store contents unchanged. -/
theorem applyStoreOp_read (contents : List String) (op : StoreOp)
    (h : op.isWrite = false) : applyStoreOp contents op = contents := by
  cases op <;> simp_all [applyStoreOp, StoreOp.isWrite]

/-- Helper: a sequence of read operations leaves the contents unchanged. -/
theorem runStoreOps_reads (contents : List String) (ops : List StoreOp)
    (h : ∀ op ∈ ops, op.isWrite = false) :
    runStoreOps contents ops = contents := by
  induction ops generalizing contents with
  | nil => rfl
  | cons op rest ih =>
    unfold runStoreOps List.foldl
    rw [applyStoreOp_read contents op (h op (List.mem_cons_self op rest))]
    exact ih contents (fun o ho => h o (List.mem_cons_of_mem op ho))

/-- C7: the retrieval handle is opened on the pre-existing collection
`"crm"` in directory `"supplemental/db"`, every store-touching operation
the notebook performs (including any retrievals the agent issues) is a
read, and running them all leaves the store contents unchanged. -/
theorem c7_store_never_written (agentQueries : List String)
    (contents : List String) :
    vector_store.collection_name = "crm" ∧
    vector_store.persist_directory = "supplemental/db" ∧
    retriever.store = vector_store ∧
    (∀ op ∈ notebookStoreOps agentQueries, op.isWrite = false) ∧
    runStoreOps contents (notebookStoreOps agentQueries) = contents := by
  have hreads : ∀ op ∈ notebookStoreOps agentQueries, op.isWrite = false := by
    intro op hop
    unfold notebookStoreOps at hop
    rcases List.mem_append.mp hop with h4 | hmap
    · fin_cases h4 <;> rfl
    · obtain ⟨q, -, rfl⟩ := List.mem_map.mp hmap
      rfl
  exact ⟨rfl, rfl, rfl, hreads, runStoreOps_reads contents _ hreads⟩

/-- Witness for C7 on concrete agent queries and contents. -/
theorem c7_store_never_written_witness :
    runStoreOps ["doc1", "doc2"] (notebookStoreOps ["google deal size"]) =
      ["doc1", "doc2"] ∧
    vector_store.collection_name = "crm" := by
  obtain ⟨h1, -, -, -, h5⟩ :=
    c7_store_never_written ["google deal size"] ["doc1", "doc2"]
  exact ⟨h5, h1⟩

/-! ### C6 — exceptions propagate uncaught -/

/-- The invariant tying a (possibly aborted) run to the canonical step
order: the executed steps are a prefix of the order (so nothing runs twice
and nothing runs out of order), an error result is exactly the exception of
the last step that began (propagated unmodified, with no later step
executed), and if no call raises then all steps run and the result is
success. -/
def PipelineInv (raised : StepName → Option String)
    (r : Except String NotebookRun × List StepName)
    (order : List StepName) : Prop :=
  r.2 <+: order ∧
  (∀ e, r.1 = .error e →
    ∃ s, r.2.getLast? = some s ∧ raised s = some e) ∧
  ((∀ s ∈ order, raised s = none) → r.2 = order ∧ ∃ run, r.1 = .ok run)

/-- Helper: the invariant holds of a finished run. -/
theorem pipelineInv_base (raised : StepName → Option String) (run : NotebookRun) :
    PipelineInv raised (.ok run, []) [] := by
  refine ⟨List.nil_prefix, ?_, ?_⟩
  · intro e he
    exact absurd he (by simp)
  · intro _
    exact ⟨rfl, run, rfl⟩

/-- Helper: the invariant is preserved by prefixing one step whose recorded
exception agrees with its call. -/
theorem pipelineInv_step {α : Type} (raised : StepName → Option String)
    (step : StepName) (call : Except String α)
    (k : α → Except String NotebookRun × List StepName)
    (rest : List StepName)
    (hmatch : ∀ e, call = .error e → raised step = some e)
    (hk : ∀ a, call = .ok a → PipelineInv raised (k a) rest) :
    PipelineInv raised (andThenStep step call k) (step :: rest) := by
  cases hc : call with
  | error e =>
    have hras := hmatch e hc
    refine ⟨⟨rest, rfl⟩, ?_, ?_⟩
    · intro e' he'
      refine ⟨step, rfl, ?_⟩
      simp only [andThenStep] at he'
      cases he'
      exact hras
    · intro hall
      exact absurd (hall step (List.mem_cons_self step rest))
        (by rw [hras]; simp)
  | ok a =>
    obtain ⟨hpre, herr, hall⟩ := hk a hc
    refine ⟨?_, ?_, ?_⟩
    · obtain ⟨t, ht⟩ := hpre
      exact ⟨t, by simp only [andThenStep, List.cons_append, ht]⟩
    · intro e he
      simp only [andThenStep] at he
      obtain ⟨s, hs, hr⟩ := herr e he
      refine ⟨s, ?_, hr⟩
      show (step :: (k a).2).getLast? = some s
      cases htr : (k a).2 with
      | nil => rw [htr] at hs; exact absurd hs (by simp)
      | cons b t =>
        rw [htr] at hs
        rw [List.getLast?_cons_cons]
        exact hs
    · intro hforall
      obtain ⟨htr, run, hrun⟩ :=
        hall (fun s hs => hforall s (List.mem_cons_of_mem step hs))
      exact ⟨by simp only [andThenStep, htr], run, by simp only [andThenStep, hrun]⟩

/-- Helper: a call that raises has that exception recorded. -/
theorem errOf_error {α : Type} (call : Except String α) (e : String)
    (h : call = .error e) : errOf call = some e := by
  rw [h]; rfl

/-- C6: apart from the credential prompt the notebook has no error handling.
For any outcomes of the external calls: the executed steps are a prefix of
the cell order (no step retried, none repeated), stopping the moment a call
raises; an error outcome of the whole run is exactly the exception of the
last step that began, propagated unchanged with no recovery step executed
after it; and if no call raises, every step runs and the run succeeds. -/
theorem c6_exceptions_propagate (ext : ExternalCalls) (env0 : EnvMap)
    (tIn oIn : String) (dt : Date) :
    stepOrder.Nodup ∧
    (runNotebook ext env0 tIn oIn dt).2 <+: stepOrder ∧
    (∀ e, (runNotebook ext env0 tIn oIn dt).1 = .error e →
      ∃ s, (runNotebook ext env0 tIn oIn dt).2.getLast? = some s ∧
        stepRaised ext s = some e) ∧
    ((∀ s ∈ stepOrder, stepRaised ext s = none) →
      (runNotebook ext env0 tIn oIn dt).2 = stepOrder ∧
      ∃ run, (runNotebook ext env0 tIn oIn dt).1 = .ok run) := by
  have hinv : PipelineInv (stepRaised ext)
      (runNotebook ext env0 tIn oIn dt) stepOrder := by
    unfold runNotebook stepOrder
    apply pipelineInv_step
    · exact fun e he => errOf_error _ e he
    · intro a _
      apply pipelineInv_step
      · exact fun e he => nomatch he
      · intro st _
        apply pipelineInv_step
        · exact fun e he => errOf_error _ e he
        · intro a _
          apply pipelineInv_step
          · exact fun e he => errOf_error _ e he
          · intro a _
            apply pipelineInv_step
            · exact fun e he => errOf_error _ e he
            · intro a _
              apply pipelineInv_step
              · exact fun e he => errOf_error _ e he
              · intro docs _
                apply pipelineInv_step
                · exact fun e he => errOf_error _ e he
                · intro a _
                  apply pipelineInv_step
                  · exact fun e he => errOf_error _ e he
                  · intro a _
                    apply pipelineInv_step
                    · exact fun e he => errOf_error _ e he
                    · intro a _
                      apply pipelineInv_step
                      · exact fun e he => errOf_error _ e he
                      · intro out1 _
                        apply pipelineInv_step
                        · exact fun e he => errOf_error _ e he
                        · intro out2 _
                          exact pipelineInv_base (stepRaised ext) _
  exact ⟨by decide, hinv.1, hinv.2.1, hinv.2.2⟩

/-- A concrete run where the `Chroma(...)` constructor raises. -/
def extChromaFails : ExternalCalls :=
  { dotenvCall := .ok ()
    tavilyClientCall := .ok ()
    chromaCall := .error "could not connect to tenant default_tenant"
    asRetrieverCall := .ok ()
    retrieverInvokeCall := .ok ["doc"]
    toolsCall := .ok ()
    modelsCall := .ok ()
    agentFactoryCall := .ok ()
    streamCall1 := fun _ => .ok [⟨[.messageItem "done"]⟩]
    streamCall2 := fun _ => .ok [⟨[.messageItem "done"]⟩] }

/-- A concrete run where every external call returns. -/
def extAllOk : ExternalCalls :=
  { dotenvCall := .ok ()
    tavilyClientCall := .ok ()
    chromaCall := .ok ()
    asRetrieverCall := .ok ()
    retrieverInvokeCall := .ok ["doc"]
    toolsCall := .ok ()
    modelsCall := .ok ()
    agentFactoryCall := .ok ()
    streamCall1 := fun _ => .ok [⟨[.messageItem "done"]⟩]
    streamCall2 := fun _ => .ok [⟨[.messageItem "done"]⟩] }

/-- Witness for C6: when `Chroma` raises, the run aborts at that step with
that exception; when nothing raises, all steps run and the run succeeds. -/
theorem c6_exceptions_propagate_witness :
    (∃ s, (runNotebook extChromaFails envNothingSet "a" "b" ⟨2025, 4, 1⟩).2.getLast? = some s ∧
      stepRaised extChromaFails s = some "could not connect to tenant default_tenant") ∧
    ((runNotebook extAllOk envNothingSet "a" "b" ⟨2025, 4, 1⟩).2 = stepOrder ∧
      ∃ run, (runNotebook extAllOk envNothingSet "a" "b" ⟨2025, 4, 1⟩).1 = .ok run) :=
  ⟨(c6_exceptions_propagate extChromaFails envNothingSet "a" "b" ⟨2025, 4, 1⟩).2.2.1
      "could not connect to tenant default_tenant" rfl,
    (c6_exceptions_propagate extAllOk envNothingSet "a" "b" ⟨2025, 4, 1⟩).2.2.2
      (by decide)⟩

/-! ### C9 — the prompt embeds the construction date

The injectivity argument: the system prompt is `promptBefore ++ today ++
promptAfter`, and `today` is the `strftime` rendering, whose weekday and
month names are mutually prefix-incomparable, whose day is exactly two
digits, and whose year numeral decodes back to the year. -/

/-- Helper: peeling a word drawn from a prefix-incomparable set of names
off the front of a character list. -/
theorem namesPeel (names : List String)
    (hpc : ∀ x ∈ names, ∀ y ∈ names, x.data <+: y.data → x = y)
    {a b : String} (ha : a ∈ names) (hb : b ∈ names) {r1 r2 : List Char}
    (h : a.data ++ r1 = b.data ++ r2) : a = b ∧ r1 = r2 := by
  rcases List.append_eq_append_iff.mp h with ⟨t, hbt, hr⟩ | ⟨t, hat, hr⟩
  · have hab : a = b := hpc a ha b hb ⟨t, hbt.symm⟩
    subst hab
    have ht : t = [] := by
      have hlen := congrArg List.length hbt
      simp only [List.length_append] at hlen
      have h0 : t.length = 0 := by omega
      exact List.eq_nil_of_length_eq_zero h0
    subst ht
    exact ⟨rfl, by simpa using hr⟩
  · have hab : b = a := hpc b hb a ha ⟨t, hat.symm⟩
    subst hab
    have ht : t = [] := by
      have hlen := congrArg List.length hat
      simp only [List.length_append] at hlen
      have h0 : t.length = 0 := by omega
      exact List.eq_nil_of_length_eq_zero h0
    subst ht
    refine ⟨rfl, ?_⟩
    have hrr : r2 = r1 := by simpa using hr
    exact hrr.symm

/-- Helper: no weekday name is a strict prefix of another. -/
theorem weekdayNames_prefix_incomparable :
    ∀ x ∈ weekdayNames, ∀ y ∈ weekdayNames, x.data <+: y.data → x = y := by
  decide

/-- Helper: no month name is a strict prefix of another. -/
theorem monthNames_prefix_incomparable :
    ∀ x ∈ monthNames, ∀ y ∈ monthNames, x.data <+: y.data → x = y := by
  decide

/-- Helper: the weekday rendered for any date is one of the seven names. -/
theorem weekdayName_mem (dt : Date) : weekdayName dt ∈ weekdayNames := by
  have hz : zeller dt < 7 := Nat.mod_lt _ (by norm_num)
  unfold weekdayName
  revert hz
  generalize zeller dt = z
  intro hz
  interval_cases z <;> decide

/-- Helper: the month rendered for a month index in 1..12 is one of the
twelve names. -/
theorem monthName_mem (m : Nat) (h1 : 1 ≤ m) (h2 : m ≤ 12) :
    monthName m ∈ monthNames := by
  have hk : m - 1 < 12 := by omega
  unfold monthName
  revert hk
  generalize m - 1 = k
  intro hk
  interval_cases k <;> decide

/-- Helper: `%B` is injective on month indices 1..12. -/
theorem monthName_inj_bounded :
    ∀ m1 < 13, ∀ m2 < 13, 1 ≤ m1 → 1 ≤ m2 →
      monthName m1 = monthName m2 → m1 = m2 := by
  decide

/-- Helper: `%d` is injective on day numbers up to 31. -/
theorem twoDigit_inj_bounded :
    ∀ x < 32, ∀ y < 32, twoDigit x = twoDigit y → x = y := by
  decide

/-- Helper: every digit the fuelled digit extractor produces is below 10. -/
theorem decDigitsAux_lt_ten (fuel n d : Nat)
    (hd : d ∈ decDigitsAux fuel n) : d < 10 := by
  induction fuel generalizing n with
  | zero => simp [decDigitsAux] at hd
  | succ f ih =>
    unfold decDigitsAux at hd
    by_cases hn : n = 0
    · simp [hn] at hd
    · rw [if_neg hn] at hd
      rcases List.mem_cons.mp hd with h | h
      · subst h; exact Nat.mod_lt _ (by norm_num)
      · exact ih _ h

/-- The value of a little-endian digit list. -/
def decValue : List Nat → Nat
  | [] => 0
  | d :: ds => d + 10 * decValue ds

/-- Helper: the digit extractor round-trips through `decValue`. -/
theorem decValue_decDigitsAux (fuel n : Nat) (h : n ≤ fuel) :
    decValue (decDigitsAux fuel n) = n := by
  induction fuel generalizing n with
  | zero =>
    have hn : n = 0 := Nat.le_zero.mp h
    subst hn; rfl
  | succ f ih =>
    by_cases hn : n = 0
    · subst hn; rfl
    · unfold decDigitsAux
      rw [if_neg hn]
      show n % 10 + 10 * decValue (decDigitsAux f (n / 10)) = n
      have hdiv : n / 10 < n := Nat.div_lt_self (Nat.pos_of_ne_zero hn) (by norm_num)
      rw [ih (n / 10) (by omega)]
      exact Nat.mod_add_div n 10

/-- Helper: `Nat.digitChar` is injective on lists of digits. -/
theorem map_digitChar_inj (l1 : List Nat) : ∀ (l2 : List Nat),
    (∀ d ∈ l1, d < 10) → (∀ d ∈ l2, d < 10) →
    l1.map Nat.digitChar = l2.map Nat.digitChar → l1 = l2 := by
  induction l1 with
  | nil =>
    intro l2 _ _ h
    cases l2 with
    | nil => rfl
    | cons b u => simp at h
  | cons a t ih =>
    intro l2 h1 h2 h
    cases l2 with
    | nil => simp at h
    | cons b u =>
      simp only [List.map_cons, List.cons.injEq] at h
      have hdec : ∀ x < 10, ∀ y < 10, Nat.digitChar x = Nat.digitChar y → x = y := by
        decide
      have hab : a = b :=
        hdec a (h1 a (List.mem_cons_self a t)) b (h2 b (List.mem_cons_self b u)) h.1
      rw [hab, ih u (fun d hd => h1 d (List.mem_cons_of_mem a hd))
        (fun d hd => h2 d (List.mem_cons_of_mem b hd)) h.2]

/-- Helper: `%Y` is injective. -/
theorem decString_inj (n1 n2 : Nat) (h : decString n1 = decString n2) :
    n1 = n2 := by
  have hd2 : (decDigitsAux n1 n1).reverse.map Nat.digitChar =
      (decDigitsAux n2 n2).reverse.map Nat.digitChar := congrArg String.data h
  have hrev := map_digitChar_inj _ _
    (fun d hd => decDigitsAux_lt_ten n1 n1 d (List.mem_reverse.mp hd))
    (fun d hd => decDigitsAux_lt_ten n2 n2 d (List.mem_reverse.mp hd)) hd2
  have hlists : decDigitsAux n1 n1 = decDigitsAux n2 n2 := List.reverse_inj.mp hrev
  calc n1 = decValue (decDigitsAux n1 n1) := (decValue_decDigitsAux n1 n1 le_rfl).symm
    _ = decValue (decDigitsAux n2 n2) := by rw [hlists]
    _ = n2 := decValue_decDigitsAux n2 n2 le_rfl

/-- Helper: the `strftime("%A, %B %d, %Y")` rendering is injective on valid
dates. -/
theorem strftimeABdY_inj (d1 d2 : Date) (h1 : validDate d1) (h2 : validDate d2)
    (h : strftimeABdY d1 = strftimeABdY d2) : d1 = d2 := by
  obtain ⟨hm1a, hm1b, hd1a, hd1b, hy1⟩ := h1
  obtain ⟨hm2a, hm2b, hd2a, hd2b, hy2⟩ := h2
  have hdata := congrArg String.data h
  simp only [strftimeABdY, String.data_append, List.append_assoc] at hdata
  obtain ⟨-, hr1⟩ := namesPeel weekdayNames weekdayNames_prefix_incomparable
    (weekdayName_mem d1) (weekdayName_mem d2) hdata
  have hr2 := List.append_cancel_left hr1
  obtain ⟨hmo, hr3⟩ := namesPeel monthNames monthNames_prefix_incomparable
    (monthName_mem d1.month hm1a hm1b) (monthName_mem d2.month hm2a hm2b) hr2
  have hmonth : d1.month = d2.month :=
    monthName_inj_bounded d1.month (by omega) d2.month (by omega) hm1a hm2a hmo
  have hr4 := List.append_cancel_left hr3
  obtain ⟨hda, hr5⟩ := List.append_inj hr4 rfl
  have hday : d1.day = d2.day :=
    twoDigit_inj_bounded d1.day (by omega) d2.day (by omega) (String.ext hda)
  have hr6 := List.append_cancel_left hr5
  have hyear : d1.year = d2.year := decString_inj d1.year d2.year (String.ext hr6)
  obtain ⟨y1, m1, dd1⟩ := d1
  obtain ⟨y2, m2, dd2⟩ := d2
  simp only at hmonth hday hyear
  rw [hmonth, hday, hyear]

/-- Helper: the system prompt determines the embedded `today` string. -/
theorem systemPromptText_inj (a b : String)
    (h : systemPromptText a = systemPromptText b) : a = b := by
  have hd := congrArg String.data h
  simp only [systemPromptText, String.data_append] at hd
  exact String.ext (List.append_cancel_left (List.append_cancel_right hd))

/-- C9: the system prompt embeds the construction date rendered with
`strftime("%A, %B %d, %Y")`, captured once at agent-construction time —
so two agents built on the same calendar date have identical prompts, and
agents built on different valid dates have different prompts. -/
theorem c9_prompt_determined_by_date (env : EnvMap) (d1 d2 : Date)
    (h1 : validDate d1) (h2 : validDate d2) :
    systemPromptText (strftimeABdY d1) =
      promptBefore ++ strftimeABdY d1 ++ promptAfter ∧
    ((hybrid_agent env d1).prompt = (hybrid_agent env d2).prompt ↔ d1 = d2) ∧
    (systemPromptText (strftimeABdY d1) = systemPromptText (strftimeABdY d2) ↔
      d1 = d2) := by
  refine ⟨rfl, ⟨?_, ?_⟩, ⟨?_, ?_⟩⟩
  · intro hp
    have h0 : ([.system (systemPromptText (strftimeABdY d1)),
        .placeholder "messages"] : List PromptMessage) =
        [.system (systemPromptText (strftimeABdY d2)), .placeholder "messages"] :=
      congrArg ChatPromptTemplate.messages hp
    simp only [List.cons.injEq, PromptMessage.system.injEq, and_true] at h0
    exact strftimeABdY_inj d1 d2 h1 h2 (systemPromptText_inj _ _ h0)
  · intro he; rw [he]
  · intro hs
    exact strftimeABdY_inj d1 d2 h1 h2 (systemPromptText_inj _ _ hs)
  · intro he; rw [he]

/-- Witness for C9: two consecutive valid dates yield different prompts. -/
theorem c9_prompt_determined_by_date_witness :
    validDate ⟨2025, 4, 1⟩ ∧ validDate ⟨2025, 4, 2⟩ ∧
    (hybrid_agent envBothSet ⟨2025, 4, 1⟩).prompt ≠
      (hybrid_agent envBothSet ⟨2025, 4, 2⟩).prompt := by
  refine ⟨by decide, by decide, ?_⟩
  intro hp
  have hdd := (c9_prompt_determined_by_date envBothSet ⟨2025, 4, 1⟩ ⟨2025, 4, 2⟩
    (by decide) (by decide)).2.1.mp hp
  exact absurd hdd (by decide)

end HybridAgent
